import Mathlib

/-!
A shallow embedding of `src/ipc_windows.rs` (the Windows named-pipe IPC
client `DiscordIpcClient`) and proofs about its operations.

OS calls (`WriteFile`, `CreateFileW`, `ReadFile`, `FlushFileBuffers`,
`CloseHandle`) are modelled by an environment oracle: each kind of call
consumes the next outcome from a per-kind stream, indexed by a call
counter kept in a `World` record that is threaded through every
operation.  The `World` also records instrumentation (how many raw
writes, opens, connects, reads, flushes happened and which handles were
passed to `CloseHandle`), so that claims about "exactly one OS call" or
"exactly 3 attempts" are statable.
-/

namespace Ipc

/-- Outcome of one `WriteFile` OS call: success, or failure with an
HRESULT-style error code. -/
inductive WriteOutcome where
  | ok : WriteOutcome
  | err : Nat → WriteOutcome
  deriving DecidableEq, Repr

/-- The HRESULT the source compares against:
`windows::core::HRESULT::from_win32(0x800700E8)`, i.e. the win32 error
232 `ERROR_NO_DATA` ("the pipe is being closed"). -/
def PIPE_CLOSING : Nat := 0x800700E8

/-- The environment oracle: the outcome of the n-th OS call of each
kind.  `openResult n i` is the result of the n-th `CreateFileW` call
overall when it targets pipe slot `i` (`none` models both the `Err`
branch and an `INVALID_HANDLE_VALUE` result; `some h` is a valid opened
handle).  `flushResult n`/`readResult n` are `none` on success and
`some code` on an OS error with that code. -/
structure Env where
  writeResult : Nat → WriteOutcome
  openResult : Nat → Nat → Option Nat
  readResult : Nat → Option Nat
  flushResult : Nat → Option Nat

/-- The OS-interaction state threaded through every operation: the
oracle plus call counters and logs. -/
structure World where
  env : Env
  /-- total `WriteFile` calls (zero-byte probes and raw data writes) -/
  writeCalls : Nat
  /-- raw `WriteFile` attempts made from the retry loop of `write` -/
  rawWrites : Nat
  /-- total `CreateFileW` calls -/
  openCalls : Nat
  /-- number of `connect_ipc` invocations -/
  connects : Nat
  /-- total `ReadFile` calls -/
  readCalls : Nat
  /-- total `FlushFileBuffers` calls -/
  flushCalls : Nat
  /-- handles passed to `CloseHandle`, in order -/
  closedHandles : List Nat
  /-- opcodes passed to the framing layer `send`, in order -/
  sentOpcodes : List Nat

/-- The struct `DiscordIpcClient`: `client_id: String`, `connected: bool`,
`pipe_handle: Option<HANDLE>` (handles modelled as `Nat`). -/
structure Client where
  client_id : String
  connected : Bool
  pipe_handle : Option Nat
  deriving DecidableEq, Repr

/-- The error values the Rust code can produce (each `Box<dyn Error>`
in the source is one of these).  `osError code` is a propagated
`windows::core::Error` (the `e.into()` / `?` paths: failed raw write,
failed read, failed flush). -/
inductive IpcError where
  | noPipeAvailable : IpcError        -- "Could not connect to Discord IPC pipe"
  | handleNotInitialized : IpcError   -- "Pipe handle not initialized"
  | writeExhausted : IpcError         -- "Failed to write to pipe after retries"
  | osError : Nat → IpcError
  deriving DecidableEq, Repr

/-- The constructor `DiscordIpcClient::new`: always `Ok`, fresh disconnected client. -/
def new (client_id : String) : Except IpcError Client :=
  .ok { client_id := client_id, connected := false, pipe_handle := none }

/-- The accessor `get_client_id`. -/
def get_client_id (c : Client) : String :=
  c.client_id

/-- One `WriteFile` OS call: consumes the next write outcome. -/
def writeFile (w : World) : WriteOutcome × World :=
  (w.env.writeResult w.writeCalls, { w with writeCalls := w.writeCalls + 1 })

/-- The probe `is_pipe_valid`: if a handle is held, try a zero-byte `WriteFile`;
`true` on `Ok`, `false` on `Err`.  No handle: `false` (no OS call). -/
def is_pipe_valid (c : Client) (w : World) : Bool × World :=
  match c.pipe_handle with
  | some _ =>
    let r := writeFile w
    (match r.1 with
     | .ok => true
     | .err _ => false, r.2)
  | none => (false, w)

/-- One `CreateFileW` call for slot `i` (`create_pipe_handle` on the
path `\\?\pipe\discord-ipc-i`): consumes the next open outcome. -/
def openPipe (w : World) (i : Nat) : Option Nat × World :=
  (w.env.openResult w.openCalls i, { w with openCalls := w.openCalls + 1 })

/-- The body of the `for i in 0..10` loop of `connect_ipc`, over the list of
slot indices still to probe: first successful open stores the handle
and sets `connected`; exhaustion returns the connect error. -/
def connect_ipc_loop (c : Client) (w : World) :
    List Nat → Except IpcError Unit × Client × World
  | [] => (.error .noPipeAvailable, c, w)
  | i :: rest =>
    let r := openPipe w i
    match r.1 with
    | some handle =>
      (.ok (), { c with pipe_handle := some handle, connected := true }, r.2)
    | none => connect_ipc_loop c r.2 rest

/-- The establisher `connect_ipc`: probe slots `0..10` in order. -/
def connect_ipc (c : Client) (w : World) :
    Except IpcError Unit × Client × World :=
  connect_ipc_loop c { w with connects := w.connects + 1 } (List.range 10)

/-- The then-branch body of `ensure_connected`: set `connected = false`,
`CloseHandle` any held handle (best-effort, result discarded), clear
`pipe_handle`, and `connect_ipc()?`. -/
def reconnect (c : Client) (w : World) :
    Except IpcError Unit × Client × World :=
  let w' : World :=
    match c.pipe_handle with
    | some h => { w with closedHandles := w.closedHandles ++ [h] }
    | none => w
  connect_ipc { c with connected := false, pipe_handle := none } w'

/-- The reconnector `ensure_connected`: if `!self.connected || !self.is_pipe_valid()`
(short-circuit: the zero-byte probe runs only when `connected` is
true), run the reconnect body; otherwise return `Ok` unchanged. -/
def ensure_connected (c : Client) (w : World) :
    Except IpcError Unit × Client × World :=
  if !c.connected then
    reconnect c w
  else
    let v := is_pipe_valid c w
    if !v.1 then reconnect c v.2 else (.ok (), c, v.2)

/-- The `while retries > 0` loop of `write`, by the value of `retries`:
each iteration requires a handle (`"Pipe handle not initialized"`),
makes one raw `WriteFile`, returns `Ok` on success; on the
`PIPE_CLOSING` error with `retries > 1` it sets `connected = false`,
runs `ensure_connected()?`, decrements `retries` and continues; any
other error (or `PIPE_CLOSING` with `retries <= 1`) is returned wrapped.
Falling out of the loop returns `"Failed to write to pipe after
retries"`. -/
def write_loop (c : Client) (w : World) :
    Nat → Except IpcError Unit × Client × World
  | 0 => (.error .writeExhausted, c, w)
  | r + 1 =>
    match c.pipe_handle with
    | none => (.error .handleNotInitialized, c, w)
    | some _ =>
      let o := writeFile w
      let w1 : World := { o.2 with rawWrites := o.2.rawWrites + 1 }
      match o.1 with
      | .ok => (.ok (), c, w1)
      | .err code =>
        if code = PIPE_CLOSING ∧ r + 1 > 1 then
          let e := ensure_connected { c with connected := false } w1
          match e.1 with
          | .error err => (.error err, e.2.1, e.2.2)
          | .ok _ => write_loop e.2.1 e.2.2 r
        else
          (.error (.osError code), c, w1)

/-- The operation `write`: `ensure_connected()?`, then the retry loop with
`retries = 3`.  The payload bytes do not influence the embedded
behaviour (outcomes come from the oracle), but are kept as a
parameter. -/
def write (c : Client) (w : World) (data : List Nat) :
    Except IpcError Unit × Client × World :=
  let _ := data
  let e := ensure_connected c w
  match e.1 with
  | .error err => (.error err, e.2.1, e.2.2)
  | .ok _ => write_loop e.2.1 e.2.2 3

/-- The operation `read`: requires a handle (`"Pipe handle not initialized"`),
otherwise exactly one `ReadFile`, whose failure is propagated. -/
def read (c : Client) (w : World) :
    Except IpcError Unit × Client × World :=
  match c.pipe_handle with
  | none => (.error .handleNotInitialized, c, w)
  | some _ =>
    let res := w.env.readResult w.readCalls
    let w1 : World := { w with readCalls := w.readCalls + 1 }
    match res with
    | none => (.ok (), c, w1)
    | some code => (.error (.osError code), c, w1)

/-- Modelled from the spec: the message-framing layer operation `send(payload,
opcode)` (the `DiscordIpc` trait default method, whose source file
`discord_ipc.rs` is not present) serializes the payload and calls this
calls the `write` of this core.  Only the opcode is observable here; it is logged. -/
def send (c : Client) (w : World) (opcode : Nat) :
    Except IpcError Unit × Client × World :=
  write c { w with sentOpcodes := w.sentOpcodes ++ [opcode] } []

/-- The operation `close`: best-effort `let _ = self.send(json!({}), 2)`; then, if a
handle is held, `FlushFileBuffers(handle)?` (note: a flush failure
returns before `self.connected = false` runs); finally
`self.connected = false; Ok(())`. -/
def close (c : Client) (w : World) :
    Except IpcError Unit × Client × World :=
  let s := send c w 2
  let c1 := s.2.1
  let w1 := s.2.2
  match c1.pipe_handle with
  | some _ =>
    let res := w1.env.flushResult w1.flushCalls
    let w2 : World := { w1 with flushCalls := w1.flushCalls + 1 }
    match res with
    | some code => (.error (.osError code), c1, w2)
    | none => (.ok (), { c1 with connected := false }, w2)
  | none => (.ok (), { c1 with connected := false }, w1)

/-- The destructor `Drop for DiscordIpcClient`: if a handle is held, run `close()`
discarding its result, then `CloseHandle` the originally held handle
unconditionally.  No handle: do nothing. -/
def drop (c : Client) (w : World) : Client × World :=
  match c.pipe_handle with
  | some h =>
    let r := close c w
    (r.2.1, { r.2.2 with closedHandles := r.2.2.closedHandles ++ [h] })
  | none => (c, w)


/-- A world with fresh (zero) instrumentation over a given oracle. -/
def initWorld (e : Env) : World :=
  { env := e, writeCalls := 0, rawWrites := 0, openCalls := 0, connects := 0,
    readCalls := 0, flushCalls := 0, closedHandles := [], sentOpcodes := [] }

/-- Concrete oracle: every OS call succeeds; opens yield handle 5. -/
def envAllOk : Env :=
  { writeResult := fun _ => .ok
    openResult := fun _ _ => some 5
    readResult := fun _ => none
    flushResult := fun _ => none }

/-- Concrete oracle: all writes succeed but the flush fails with code 99. -/
def envFlushFail : Env :=
  { envAllOk with flushResult := fun _ => some 99 }

/-- Concrete oracle: the first `WriteFile` (the zero-byte probe) succeeds
and every later one fails with the transient closing error; opens
succeed. -/
def envClosingAlways : Env :=
  { envAllOk with
    writeResult := fun n => if n = 0 then .ok else .err PIPE_CLOSING }

/-- Concrete oracle: only the second `WriteFile` (the first raw write)
fails, with the transient closing error; everything else succeeds. -/
def envClosingOnce : Env :=
  { envAllOk with
    writeResult := fun n => if n = 1 then .err PIPE_CLOSING else .ok }

/-- Concrete oracle: every `CreateFileW` fails. -/
def envOpenFail : Env :=
  { envAllOk with openResult := fun _ _ => none }

/-- Concrete oracle: `CreateFileW` succeeds only on slot 3, with
handle 42. -/
def envSlot3 : Env :=
  { envAllOk with openResult := fun _ i => if i = 3 then some 42 else none }

/-- A freshly constructed client. -/
def cFresh : Client := { client_id := "client", connected := false, pipe_handle := none }

/-- A connected client holding handle 7. -/
def cConn : Client := { client_id := "client", connected := true, pipe_handle := some 7 }

/-- C10: Construction never fails: for every client_id string, `new`
returns `Ok` of a client with `connected = false`, `pipe_handle = None`
and the given `client_id`, and `get_client_id` on that fresh client
returns the construction argument; the error branch of the `Result` is
never taken. -/
theorem C10_new_infallible (s : String) :
    new s = .ok { client_id := s, connected := false, pipe_handle := none } ∧
    get_client_id { client_id := s, connected := false, pipe_handle := none } = s :=
  ⟨rfl, rfl⟩

/-- C7: `read` with no handle returns the handle-not-initialized error
and performs no OS call (client and world unchanged); with a handle it
performs exactly one `ReadFile` (the `readCalls` counter increments by
one and nothing else changes), returns `Ok` when the OS read succeeds
and propagates the OS error otherwise. -/
theorem C7_read_single_shot (c : Client) (w : World) :
    (c.pipe_handle = none →
      read c w = (.error .handleNotInitialized, c, w)) ∧
    (∀ h, c.pipe_handle = some h →
      (read c w).2.1 = c ∧
      (read c w).2.2 = { w with readCalls := w.readCalls + 1 } ∧
      (read c w).1 = (match w.env.readResult w.readCalls with
        | none => .ok ()
        | some code => .error (.osError code))) := by
  constructor
  · intro hnone
    simp [read, hnone]
  · intro h hsome
    cases hres : w.env.readResult w.readCalls <;>
      simp [read, hsome, hres]

/-- Closed instance of the C7 theorem: a fresh client with no handle,
and a connected client under the all-ok oracle. -/
theorem C7_read_single_shot_witness :
    read cFresh (initWorld envAllOk) =
      (.error .handleNotInitialized, cFresh, initWorld envAllOk) ∧
    (read cConn (initWorld envAllOk)).2.2 =
      { initWorld envAllOk with readCalls := 1 } := by
  refine ⟨(C7_read_single_shot cFresh (initWorld envAllOk)).1 rfl, ?_⟩
  exact ((C7_read_single_shot cConn (initWorld envAllOk)).2 7 rfl).2.1

/-- C8: the Drop path.  With no handle it does nothing.  With a held
handle it runs `close` (whose `Result` is discarded: the outcome is the
same whether `close` succeeded or failed) and then passes the
originally held handle to `CloseHandle` unconditionally.  `drop`
returns a plain pair, not a `Result`: no error can escape, and as a
total Lean function it cannot diverge or panic. -/
theorem C8_drop_releases (c : Client) (w : World) :
    (c.pipe_handle = none → drop c w = (c, w)) ∧
    (∀ h, c.pipe_handle = some h →
      drop c w = ((close c w).2.1,
        { (close c w).2.2 with
            closedHandles := (close c w).2.2.closedHandles ++ [h] })) := by
  constructor
  · intro hnone
    simp [drop, hnone]
  · intro h hsome
    simp [drop, hsome]

/-- Closed instance of the C8 theorem: a client with no handle is
untouched, and for a connected client under the flush-failing oracle
(so that `close` returns an error) the held handle 7 is still closed. -/
theorem C8_drop_releases_witness :
    drop cFresh (initWorld envAllOk) = (cFresh, initWorld envAllOk) ∧
    drop cConn (initWorld envFlushFail) =
      ((close cConn (initWorld envFlushFail)).2.1,
        { (close cConn (initWorld envFlushFail)).2.2 with
            closedHandles :=
              (close cConn (initWorld envFlushFail)).2.2.closedHandles ++ [7] }) :=
  ⟨(C8_drop_releases cFresh (initWorld envAllOk)).1 rfl,
   (C8_drop_releases cConn (initWorld envFlushFail)).2 7 rfl⟩

/-- Counterexample to C3 as stated: under the flush-failing oracle,
`close` on a connected client propagates the flush error (code 99), yet
the resulting state is still `connected = true`: the early return of
`FlushFileBuffers(handle)?` happens before `self.connected = false`, so
`close` does NOT set the state to Disconnected when the flush fails. -/
theorem C3_counterexample :
    (close cConn (initWorld envFlushFail)).1 = .error (.osError 99) ∧
    (close cConn (initWorld envFlushFail)).2.1.connected = true := by
  constructor <;> rfl

/-- C3 amended: whenever `close` returns `Ok` (the flush succeeded or no
handle was held after the best-effort send), the resulting state is
Disconnected; on a flush failure the error is propagated and the state
is left as the send left it, not forced to Disconnected. -/
theorem C3_close_disconnects_on_ok (c : Client) (w : World)
    (hok : (close c w).1 = .ok ()) :
    (close c w).2.1.connected = false := by
  unfold close at *
  set s := send c w 2 with hs
  cases hh : s.2.1.pipe_handle with
  | none => simp [hh]
  | some h =>
    cases hres : s.2.2.env.flushResult s.2.2.flushCalls with
    | none => simp [hh, hres]
    | some code => simp [hh, hres] at hok

/-- Closed instance of the C3 theorem: under the all-ok oracle, `close`
on a connected client returns `Ok` and the state is Disconnected. -/
theorem C3_close_disconnects_on_ok_witness :
    (close cConn (initWorld envAllOk)).2.1.connected = false :=
  C3_close_disconnects_on_ok cConn (initWorld envAllOk) rfl

/-- Counterexample to C1 as stated: starting from a freshly constructed
client, `connect_ipc` under the all-ok oracle reaches a Connected state
with handle 5, and `close` then sets `connected = false` while leaving
`pipe_handle = some 5` held: the state is Disconnected with a non-None
handle, so the "None iff Disconnected" equivalence is violated by a
reachable state. -/
theorem C1_counterexample :
    (close (connect_ipc cFresh (initWorld envAllOk)).2.1
        (connect_ipc cFresh (initWorld envAllOk)).2.2).2.1.pipe_handle = some 5 ∧
    (close (connect_ipc cFresh (initWorld envAllOk)).2.1
        (connect_ipc cFresh (initWorld envAllOk)).2.2).2.1.connected = false := by
  constructor <;> rfl

/-- The amended one-directional invariant: a client with no handle is
Disconnected (equivalently, a Connected client holds a handle). -/
def handle_inv (c : Client) : Prop :=
  c.pipe_handle = none → c.connected = false

lemma is_pipe_valid_none (c : Client) (w : World) (hh : c.pipe_handle = none) :
    is_pipe_valid c w = (false, w) := by
  simp [is_pipe_valid, hh]

lemma is_pipe_valid_some (c : Client) (w : World) (h : Nat)
    (hh : c.pipe_handle = some h) :
    is_pipe_valid c w =
      ((match w.env.writeResult w.writeCalls with
        | .ok => true
        | .err _ => false),
       { w with writeCalls := w.writeCalls + 1 }) := by
  simp [is_pipe_valid, hh, writeFile]

lemma ensure_connected_of_disconnected (c : Client) (w : World)
    (hc : c.connected = false) :
    ensure_connected c w = reconnect c w := by
  simp [ensure_connected, hc]

lemma ensure_connected_of_valid (c : Client) (w : World)
    (hc : c.connected = true) (hv : (is_pipe_valid c w).1 = true) :
    ensure_connected c w = (.ok (), c, (is_pipe_valid c w).2) := by
  simp [ensure_connected, hc, hv]

lemma ensure_connected_of_invalid (c : Client) (w : World)
    (hc : c.connected = true) (hv : (is_pipe_valid c w).1 = false) :
    ensure_connected c w = reconnect c (is_pipe_valid c w).2 := by
  simp [ensure_connected, hc, hv]

lemma write_loop_no_handle (c : Client) (w : World) (r : Nat)
    (hh : c.pipe_handle = none) :
    write_loop c w (r + 1) = (.error .handleNotInitialized, c, w) := by
  simp [write_loop, hh]

lemma write_loop_write_ok (c : Client) (w : World) (r : Nat) (h : Nat)
    (hh : c.pipe_handle = some h)
    (hres : w.env.writeResult w.writeCalls = .ok) :
    write_loop c w (r + 1) =
      (.ok (), c, { w with writeCalls := w.writeCalls + 1,
                           rawWrites := w.rawWrites + 1 }) := by
  simp [write_loop, hh, writeFile, hres]

lemma write_loop_closing_retry (c : Client) (w : World) (r : Nat) (h : Nat)
    (hh : c.pipe_handle = some h) (hr : 0 < r)
    (hres : w.env.writeResult w.writeCalls = .err PIPE_CLOSING) :
    write_loop c w (r + 1) =
      (let e := ensure_connected { c with connected := false }
          { w with writeCalls := w.writeCalls + 1, rawWrites := w.rawWrites + 1 }
       match e.1 with
       | .error err => (.error err, e.2.1, e.2.2)
       | .ok _ => write_loop e.2.1 e.2.2 r) := by
  have hgt : r + 1 > 1 := by omega
  simp [write_loop, hh, writeFile, hres, hgt]

lemma write_loop_err_fatal (c : Client) (w : World) (r : Nat) (h code : Nat)
    (hh : c.pipe_handle = some h)
    (hres : w.env.writeResult w.writeCalls = .err code)
    (hcond : ¬(code = PIPE_CLOSING ∧ r + 1 > 1)) :
    write_loop c w (r + 1) =
      (.error (.osError code), c,
        { w with writeCalls := w.writeCalls + 1,
                 rawWrites := w.rawWrites + 1 }) := by
  simp only [write_loop, hh, writeFile, hres, if_neg hcond]

lemma write_eq (c : Client) (w : World) (d : List Nat) :
    write c w d =
      (let e := ensure_connected c w
       match e.1 with
       | .error err => (.error err, e.2.1, e.2.2)
       | .ok _ => write_loop e.2.1 e.2.2 3) := rfl

lemma close_eq (c : Client) (w : World) :
    close c w =
      (let s := send c w 2
       match s.2.1.pipe_handle with
       | some _ =>
         (match s.2.2.env.flushResult s.2.2.flushCalls with
          | some code => (.error (.osError code), s.2.1,
              { s.2.2 with flushCalls := s.2.2.flushCalls + 1 })
          | none => (.ok (), { s.2.1 with connected := false },
              { s.2.2 with flushCalls := s.2.2.flushCalls + 1 }))
       | none => (.ok (), { s.2.1 with connected := false }, s.2.2)) := rfl

lemma read_client (c : Client) (w : World) : (read c w).2.1 = c := by
  unfold read
  cases c.pipe_handle with
  | none => rfl
  | some hd => cases w.env.readResult w.readCalls <;> rfl

lemma connect_loop_handle_inv (l : List Nat) (c : Client) (w : World)
    (h : handle_inv c) : handle_inv (connect_ipc_loop c w l).2.1 := by
  induction l generalizing w with
  | nil => exact h
  | cons i rest ih =>
    cases hres : w.env.openResult w.openCalls i with
    | some hd =>
      intro hnone
      simp [connect_ipc_loop, openPipe, hres] at hnone
    | none =>
      simpa [connect_ipc_loop, openPipe, hres] using ih _

lemma connect_ipc_handle_inv (c : Client) (w : World)
    (h : handle_inv c) : handle_inv (connect_ipc c w).2.1 :=
  connect_loop_handle_inv _ _ _ h

lemma reconnect_handle_inv (c : Client) (w : World) :
    handle_inv (reconnect c w).2.1 := by
  unfold reconnect
  exact connect_ipc_handle_inv _ _ (fun _ => rfl)

lemma ensure_connected_handle_inv (c : Client) (w : World)
    (h : handle_inv c) : handle_inv (ensure_connected c w).2.1 := by
  cases hc : c.connected with
  | false =>
    rw [ensure_connected_of_disconnected c w hc]
    exact reconnect_handle_inv _ _
  | true =>
    cases hv : (is_pipe_valid c w).1 with
    | false =>
      rw [ensure_connected_of_invalid c w hc hv]
      exact reconnect_handle_inv _ _
    | true =>
      rw [ensure_connected_of_valid c w hc hv]
      exact h

lemma write_loop_handle_inv (r : Nat) : ∀ (c : Client) (w : World),
    handle_inv c → handle_inv (write_loop c w r).2.1 := by
  induction r with
  | zero => intro c w h; exact h
  | succ r ih =>
    intro c w h
    cases hh : c.pipe_handle with
    | none => rw [write_loop_no_handle c w r hh]; exact h
    | some hd =>
      cases hres : w.env.writeResult w.writeCalls with
      | ok => rw [write_loop_write_ok c w r hd hh hres]; exact h
      | err code =>
        by_cases hcond : code = PIPE_CLOSING ∧ r + 1 > 1
        · obtain ⟨hcode, hgt⟩ := hcond
          subst hcode
          rw [write_loop_closing_retry c w r hd hh (by omega) hres]
          simp only
          cases hens : (ensure_connected { c with connected := false }
              { w with writeCalls := w.writeCalls + 1,
                       rawWrites := w.rawWrites + 1 }).1 with
          | error e =>
            simp only [hens]
            exact ensure_connected_handle_inv _ _ (fun _ => rfl)
          | ok u =>
            simp only [hens]
            exact ih _ _ (ensure_connected_handle_inv _ _ (fun _ => rfl))
        · rw [write_loop_err_fatal c w r hd code hh hres hcond]; exact h

lemma write_handle_inv (c : Client) (w : World) (d : List Nat)
    (h : handle_inv c) : handle_inv (write c w d).2.1 := by
  rw [write_eq]
  simp only
  cases hens : (ensure_connected c w).1 with
  | error e =>
    simp only [hens]
    exact ensure_connected_handle_inv c w h
  | ok u =>
    simp only [hens]
    exact write_loop_handle_inv 3 _ _ (ensure_connected_handle_inv c w h)

lemma read_handle_inv (c : Client) (w : World)
    (h : handle_inv c) : handle_inv (read c w).2.1 := by
  rw [read_client]; exact h

lemma send_handle_inv (c : Client) (w : World) (op : Nat)
    (h : handle_inv c) : handle_inv (send c w op).2.1 :=
  write_handle_inv _ _ _ h

lemma close_handle_inv (c : Client) (w : World)
    (h : handle_inv c) : handle_inv (close c w).2.1 := by
  rw [close_eq]
  simp only
  cases hh : (send c w 2).2.1.pipe_handle with
  | none =>
    simp only [hh]
    intro _
    rfl
  | some hd =>
    cases hres : (send c w 2).2.2.env.flushResult (send c w 2).2.2.flushCalls with
    | some code =>
      simp only [hh, hres]
      exact send_handle_inv c w 2 h
    | none =>
      simp only [hh, hres]
      intro _
      rfl

lemma drop_handle_inv (c : Client) (w : World)
    (h : handle_inv c) : handle_inv (drop c w).1 := by
  unfold drop
  cases hh : c.pipe_handle with
  | none => exact h
  | some hd =>
    simp only
    exact close_handle_inv c w h

/-- C1 amended: the invariant that holds and is preserved is the one
direction "no handle implies Disconnected" (equivalently: a Connected
client always holds a handle).  It holds at construction and is
preserved by `connect_ipc`, `ensure_connected`, `write`, `read`,
`close` and the Drop path.  (The converse direction fails: see the
counterexample, where `close` leaves a Disconnected client still
holding its handle.) -/
theorem C1_handle_inv_preserved :
    (∀ s c, new s = .ok c → handle_inv c) ∧
    (∀ c w, handle_inv c → handle_inv (connect_ipc c w).2.1) ∧
    (∀ c w, handle_inv c → handle_inv (ensure_connected c w).2.1) ∧
    (∀ c w d, handle_inv c → handle_inv (write c w d).2.1) ∧
    (∀ c w, handle_inv c → handle_inv (read c w).2.1) ∧
    (∀ c w, handle_inv c → handle_inv (close c w).2.1) ∧
    (∀ c w, handle_inv c → handle_inv (drop c w).1) := by
  refine ⟨?_, connect_ipc_handle_inv, ensure_connected_handle_inv,
    write_handle_inv, read_handle_inv, close_handle_inv, drop_handle_inv⟩
  intro s c hc
  have h1 : ({ client_id := s, connected := false, pipe_handle := none } : Client) = c := by
    simpa [new] using hc
  intro _
  rw [← h1]

/-- Closed instance of the C1 amended theorem, applying each conjunct
at concrete inputs. -/
theorem C1_handle_inv_preserved_witness :
    handle_inv cFresh ∧
    handle_inv (connect_ipc cFresh (initWorld envAllOk)).2.1 ∧
    handle_inv (ensure_connected cFresh (initWorld envAllOk)).2.1 ∧
    handle_inv (write cFresh (initWorld envAllOk) []).2.1 ∧
    handle_inv (read cFresh (initWorld envAllOk)).2.1 ∧
    handle_inv (close cFresh (initWorld envAllOk)).2.1 ∧
    handle_inv (drop cFresh (initWorld envAllOk)).1 :=
  ⟨C1_handle_inv_preserved.1 "client" cFresh rfl,
   C1_handle_inv_preserved.2.1 cFresh (initWorld envAllOk) (fun _ => rfl),
   C1_handle_inv_preserved.2.2.1 cFresh (initWorld envAllOk) (fun _ => rfl),
   C1_handle_inv_preserved.2.2.2.1 cFresh (initWorld envAllOk) [] (fun _ => rfl),
   C1_handle_inv_preserved.2.2.2.2.1 cFresh (initWorld envAllOk) (fun _ => rfl),
   C1_handle_inv_preserved.2.2.2.2.2.1 cFresh (initWorld envAllOk) (fun _ => rfl),
   C1_handle_inv_preserved.2.2.2.2.2.2 cFresh (initWorld envAllOk) (fun _ => rfl)⟩


lemma connect_loop_all_fail (n : Nat) : ∀ (s : Nat) (c : Client) (w : World),
    (∀ j, j < n → w.env.openResult (w.openCalls + j) (s + j) = none) →
    connect_ipc_loop c w (List.range' s n) =
      (.error .noPipeAvailable, c, { w with openCalls := w.openCalls + n }) := by
  induction n with
  | zero =>
    intro s c w _
    simp [connect_ipc_loop]
  | succ m ih =>
    intro s c w hfail
    rw [List.range'_succ]
    have h0 : w.env.openResult (w.openCalls + 0) (s + 0) = none := hfail 0 (by omega)
    simp only [Nat.add_zero] at h0
    simp only [connect_ipc_loop, openPipe, h0]
    have hf : ∀ j, j < m →
        ({ w with openCalls := w.openCalls + 1 } : World).env.openResult
          (({ w with openCalls := w.openCalls + 1 } : World).openCalls + j)
          (s + 1 + j) = none := by
      intro j hj
      have hx := hfail (j + 1) (by omega)
      have e1 : w.openCalls + (j + 1) = w.openCalls + 1 + j := by omega
      have e2 : s + (j + 1) = s + 1 + j := by omega
      rw [e1, e2] at hx
      simpa using hx
    rw [ih (s + 1) c { w with openCalls := w.openCalls + 1 } hf]
    have harith : w.openCalls + 1 + m = w.openCalls + (m + 1) := by omega
    simp [harith]

lemma connect_loop_first_success (k : Nat) :
    ∀ (n s : Nat) (c : Client) (w : World) (h : Nat),
    k < n →
    (∀ j, j < k → w.env.openResult (w.openCalls + j) (s + j) = none) →
    w.env.openResult (w.openCalls + k) (s + k) = some h →
    connect_ipc_loop c w (List.range' s n) =
      (.ok (), { c with pipe_handle := some h, connected := true },
        { w with openCalls := w.openCalls + k + 1 }) := by
  induction k with
  | zero =>
    intro n s c w h hk hfail hsucc
    obtain ⟨m, rfl⟩ : ∃ m, n = m + 1 := ⟨n - 1, by omega⟩
    rw [List.range'_succ]
    simp only [Nat.add_zero] at hsucc
    simp [connect_ipc_loop, openPipe, hsucc]
  | succ kp ih =>
    intro n s c w h hk hfail hsucc
    obtain ⟨m, rfl⟩ : ∃ m, n = m + 1 := ⟨n - 1, by omega⟩
    rw [List.range'_succ]
    have h0 : w.env.openResult (w.openCalls + 0) (s + 0) = none := hfail 0 (by omega)
    simp only [Nat.add_zero] at h0
    simp only [connect_ipc_loop, openPipe, h0]
    have hf : ∀ j, j < kp →
        ({ w with openCalls := w.openCalls + 1 } : World).env.openResult
          (({ w with openCalls := w.openCalls + 1 } : World).openCalls + j)
          (s + 1 + j) = none := by
      intro j hj
      have hx := hfail (j + 1) (by omega)
      have e1 : w.openCalls + (j + 1) = w.openCalls + 1 + j := by omega
      have e2 : s + (j + 1) = s + 1 + j := by omega
      rw [e1, e2] at hx
      simpa using hx
    have hs : ({ w with openCalls := w.openCalls + 1 } : World).env.openResult
        (({ w with openCalls := w.openCalls + 1 } : World).openCalls + kp)
        (s + 1 + kp) = some h := by
      have hx := hsucc
      have e1 : w.openCalls + (kp + 1) = w.openCalls + 1 + kp := by omega
      have e2 : s + (kp + 1) = s + 1 + kp := by omega
      rw [e1, e2] at hx
      simpa using hx
    rw [ih m (s + 1) c { w with openCalls := w.openCalls + 1 } h (by omega) hf hs]
    have harith : w.openCalls + 1 + kp = w.openCalls + (kp + 1) := by omega
    simp [harith]

/-- General first-success specification of `connect_ipc`, used both by
the C4 theorem and by the write-retry traces. -/
lemma connect_ipc_first (c : Client) (w : World) (k h : Nat)
    (hk : k < 10)
    (hfail : ∀ j, j < k → w.env.openResult (w.openCalls + j) j = none)
    (hsucc : w.env.openResult (w.openCalls + k) k = some h) :
    connect_ipc c w =
      (.ok (), { c with pipe_handle := some h, connected := true },
        { w with connects := w.connects + 1,
                 openCalls := w.openCalls + k + 1 }) := by
  unfold connect_ipc
  rw [List.range_eq_range']
  have hf : ∀ j, j < k →
      ({ w with connects := w.connects + 1 } : World).env.openResult
        (({ w with connects := w.connects + 1 } : World).openCalls + j)
        (0 + j) = none := by
    intro j hj
    simpa using hfail j hj
  have hs : ({ w with connects := w.connects + 1 } : World).env.openResult
      (({ w with connects := w.connects + 1 } : World).openCalls + k)
      (0 + k) = some h := by
    simpa using hsucc
  rw [connect_loop_first_success k 10 0 c { w with connects := w.connects + 1 } h hk hf hs]

/-- C4: `connect_ipc` probes slots 0 through 9 in ascending order and
stops at the first successful open: if opening fails for every slot
below `k` and succeeds at slot `k` (for `k < 10`), then `connect_ipc`
returns `Ok`, stores exactly the handle opened for slot `k`, sets
`connected = true`, and has made exactly `k + 1` `CreateFileW` calls
(so no slot above `k` was probed). -/
theorem C4_connect_first_success (c : Client) (w : World) (k h : Nat)
    (hk : k < 10)
    (hfail : ∀ j, j < k → w.env.openResult (w.openCalls + j) j = none)
    (hsucc : w.env.openResult (w.openCalls + k) k = some h) :
    connect_ipc c w =
      (.ok (), { c with pipe_handle := some h, connected := true },
        { w with connects := w.connects + 1,
                 openCalls := w.openCalls + k + 1 }) :=
  connect_ipc_first c w k h hk hfail hsucc

/-- Closed instance of the C4 theorem: under the oracle where only slot
3 opens (yielding handle 42), a fresh client connects with handle 42
after exactly 4 open attempts. -/
theorem C4_connect_first_success_witness :
    connect_ipc cFresh (initWorld envSlot3) =
      (.ok (), { cFresh with pipe_handle := some 42, connected := true },
        { initWorld envSlot3 with connects := 1, openCalls := 4 }) :=
  C4_connect_first_success cFresh (initWorld envSlot3) 3 42 (by omega)
    (fun j hj => by interval_cases j <;> rfl) rfl

/-- C5: if opening fails for every slot 0 through 9, `connect_ipc`
returns the no-pipe-available error, and a client that held no handle
and was Disconnected is left with no handle and Disconnected (the
client record is in fact returned unchanged). -/
theorem C5_connect_exhaustion (c : Client) (w : World)
    (hfail : ∀ j, j < 10 → w.env.openResult (w.openCalls + j) j = none)
    (hh : c.pipe_handle = none) (hc : c.connected = false) :
    (connect_ipc c w).1 = .error .noPipeAvailable ∧
    (connect_ipc c w).2.1.pipe_handle = none ∧
    (connect_ipc c w).2.1.connected = false := by
  unfold connect_ipc
  rw [List.range_eq_range']
  have hf : ∀ j, j < 10 →
      ({ w with connects := w.connects + 1 } : World).env.openResult
        (({ w with connects := w.connects + 1 } : World).openCalls + j)
        (0 + j) = none := by
    intro j hj
    simpa using hfail j hj
  rw [connect_loop_all_fail 10 0 c { w with connects := w.connects + 1 } hf]
  exact ⟨rfl, hh, hc⟩

/-- Closed instance of the C5 theorem: under the oracle where every
open fails, a fresh client gets the no-pipe-available error and stays
handle-free and Disconnected. -/
theorem C5_connect_exhaustion_witness :
    (connect_ipc cFresh (initWorld envOpenFail)).1 = .error .noPipeAvailable ∧
    (connect_ipc cFresh (initWorld envOpenFail)).2.1.pipe_handle = none ∧
    (connect_ipc cFresh (initWorld envOpenFail)).2.1.connected = false :=
  C5_connect_exhaustion cFresh (initWorld envOpenFail)
    (fun _ _ => rfl) rfl rfl

/-- The shape of every possible result of `write`: success, the
propagated connect failure, the missing-handle failure, or a wrapped
OS error.  Notably the retries-exhausted error is not among them. -/
def write_result_shape (x : Except IpcError Unit) : Prop :=
  x = .ok () ∨ x = .error .noPipeAvailable ∨ x = .error .handleNotInitialized ∨
  ∃ code, x = .error (.osError code)

lemma connect_loop_result (l : List Nat) : ∀ (c : Client) (w : World),
    (connect_ipc_loop c w l).1 = .ok () ∨
    (connect_ipc_loop c w l).1 = .error .noPipeAvailable := by
  induction l with
  | nil => intro c w; right; rfl
  | cons i rest ih =>
    intro c w
    cases hres : w.env.openResult w.openCalls i with
    | some hd => left; simp [connect_ipc_loop, openPipe, hres]
    | none => simpa [connect_ipc_loop, openPipe, hres] using ih c _

lemma ensure_connected_result (c : Client) (w : World) :
    (ensure_connected c w).1 = .ok () ∨
    (ensure_connected c w).1 = .error .noPipeAvailable := by
  cases hc : c.connected with
  | false =>
    rw [ensure_connected_of_disconnected c w hc]
    exact connect_loop_result _ _ _
  | true =>
    cases hv : (is_pipe_valid c w).1 with
    | false =>
      rw [ensure_connected_of_invalid c w hc hv]
      exact connect_loop_result _ _ _
    | true =>
      rw [ensure_connected_of_valid c w hc hv]
      left; rfl

lemma write_loop_shape (r : Nat) : 0 < r → ∀ (c : Client) (w : World),
    write_result_shape (write_loop c w r).1 := by
  induction r with
  | zero => omega
  | succ r ih =>
    intro _ c w
    cases hh : c.pipe_handle with
    | none =>
      rw [write_loop_no_handle c w r hh]
      right; right; left; rfl
    | some hd =>
      cases hres : w.env.writeResult w.writeCalls with
      | ok =>
        rw [write_loop_write_ok c w r hd hh hres]
        left; rfl
      | err code =>
        by_cases hcond : code = PIPE_CLOSING ∧ r + 1 > 1
        · obtain ⟨hcode, hgt⟩ := hcond
          subst hcode
          rw [write_loop_closing_retry c w r hd hh (by omega) hres]
          simp only
          cases hens : (ensure_connected { c with connected := false }
              { w with writeCalls := w.writeCalls + 1,
                       rawWrites := w.rawWrites + 1 }).1 with
          | error e =>
            simp only [hens]
            rcases ensure_connected_result { c with connected := false }
                { w with writeCalls := w.writeCalls + 1,
                         rawWrites := w.rawWrites + 1 } with h1 | h1 <;>
              rw [hens] at h1
            · exact absurd h1 (by simp)
            · right; left
              injection h1 with h2
              rw [h2]
          | ok u =>
            simp only [hens]
            exact ih (by omega) _ _
        · rw [write_loop_err_fatal c w r hd code hh hres hcond]
          right; right; right
          exact ⟨code, rfl⟩

/-- C9: the retry counter of `write` starts at 3 and is decremented
only when it is greater than 1, so it never reaches 0 and the
post-loop retries-exhausted return is unreachable: for every client
state and every oracle (every sequence of OS write / open outcomes),
`write` returns from within the loop with success, the propagated
connect error, the missing-handle error, or a wrapped OS write error
-- never the retries-exhausted error. -/
theorem C9_write_exhausted_unreachable (c : Client) (w : World) (d : List Nat) :
    (write c w d).1 = .ok () ∨
    (write c w d).1 = .error .noPipeAvailable ∨
    (write c w d).1 = .error .handleNotInitialized ∨
    ∃ code, (write c w d).1 = .error (.osError code) := by
  rw [write_eq]
  simp only
  cases hens : (ensure_connected c w).1 with
  | error e =>
    simp only [hens]
    rcases ensure_connected_result c w with h1 | h1 <;> rw [hens] at h1
    · exact absurd h1 (by simp)
    · right; left
      injection h1 with h2
      rw [h2]
  | ok u =>
    simp only [hens]
    exact write_loop_shape 3 (by omega) _ _

lemma range_ten : List.range 10 = [0, 1, 2, 3, 4, 5, 6, 7, 8, 9] := by rfl

/-- Counterexample to C2 as stated: a connected client whose probe
succeeds and whose raw writes then all fail with the transient closing
error.  After exactly 3 raw write attempts (with successful
reconnection between them), `write` returns the wrapped OS closing
error -- the `Err(e.into())` path, the WriteFailed wrapping -- and NOT
the retries-exhausted ("Failed to write to pipe after retries")
error the claim requires: on the third attempt `retries == 1`, so the
retry branch is skipped and the error is returned wrapped. -/
theorem C2_counterexample :
    (write cConn (initWorld envClosingAlways) []).1 =
      .error (.osError PIPE_CLOSING) ∧
    (write cConn (initWorld envClosingAlways) []).2.2.rawWrites = 3 := by
  constructor <;> rfl

/-- C2 amended: if a connected client holding a handle passes the
validity probe and the raw OS write then fails with the transient
closing error on three consecutive attempts (reconnection succeeding
in between), `write` returns the WriteFailed wrapping of the OS
closing error -- not success and not the retries-exhausted error --
having made exactly 3 raw write attempts. -/
theorem C2_closing_thrice_write_failed (e : Env) (cid : String)
    (h h1 h2 : Nat) (d : List Nat)
    (hp : e.writeResult 0 = .ok)
    (hw1 : e.writeResult 1 = .err PIPE_CLOSING)
    (hw2 : e.writeResult 2 = .err PIPE_CLOSING)
    (hw3 : e.writeResult 3 = .err PIPE_CLOSING)
    (ho1 : e.openResult 0 0 = some h1)
    (ho2 : e.openResult 1 0 = some h2) :
    (write ⟨cid, true, some h⟩ (initWorld e) d).1 =
      .error (.osError PIPE_CLOSING) ∧
    (write ⟨cid, true, some h⟩ (initWorld e) d).2.2.rawWrites = 3 := by
  simp [write, ensure_connected, is_pipe_valid, writeFile, write_loop, reconnect,
        connect_ipc, connect_ipc_loop, openPipe, initWorld, range_ten,
        hp, hw1, hw2, hw3, ho1, ho2]

/-- Closed instance of the C2 amended theorem at a different concrete
client. -/
theorem C2_closing_thrice_write_failed_witness :
    (write ⟨"w", true, some 9⟩ (initWorld envClosingAlways) []).1 =
      .error (.osError PIPE_CLOSING) ∧
    (write ⟨"w", true, some 9⟩ (initWorld envClosingAlways) []).2.2.rawWrites = 3 :=
  C2_closing_thrice_write_failed envClosingAlways "w" 9 5 5 []
    rfl rfl rfl rfl rfl rfl

/-- C6: if the probe succeeds, the first raw write attempt fails with
the transient closing error, reconnection succeeds (slot 0 opens with
a fresh handle), and the second raw write attempt succeeds, then
`write` returns success with the re-established connection (the new
handle, `connected = true`), the connection was re-established exactly
once (`connects` went from 0 to 1), and exactly one unit of the retry
budget was consumed (2 raw write attempts for a budget of 3). -/
theorem C6_transient_retry_succeeds (e : Env) (cid : String)
    (h h1 : Nat) (d : List Nat)
    (hp : e.writeResult 0 = .ok)
    (hw1 : e.writeResult 1 = .err PIPE_CLOSING)
    (hw2 : e.writeResult 2 = .ok)
    (ho1 : e.openResult 0 0 = some h1) :
    (write ⟨cid, true, some h⟩ (initWorld e) d).1 = .ok () ∧
    (write ⟨cid, true, some h⟩ (initWorld e) d).2.1 = ⟨cid, true, some h1⟩ ∧
    (write ⟨cid, true, some h⟩ (initWorld e) d).2.2.connects = 1 ∧
    (write ⟨cid, true, some h⟩ (initWorld e) d).2.2.rawWrites = 2 := by
  simp [write, ensure_connected, is_pipe_valid, writeFile, write_loop, reconnect,
        connect_ipc, connect_ipc_loop, openPipe, initWorld, range_ten,
        hp, hw1, hw2, ho1]

/-- Closed instance of the C6 theorem under the closing-once oracle. -/
theorem C6_transient_retry_succeeds_witness :
    (write cConn (initWorld envClosingOnce) []).1 = .ok () ∧
    (write cConn (initWorld envClosingOnce) []).2.1 = ⟨"client", true, some 5⟩ ∧
    (write cConn (initWorld envClosingOnce) []).2.2.connects = 1 ∧
    (write cConn (initWorld envClosingOnce) []).2.2.rawWrites = 2 :=
  C6_transient_retry_succeeds envClosingOnce "client" 7 5 [] rfl rfl rfl rfl

end Ipc
